import Mathlib

/-!
# Verification of the Axles call-session orchestrator

Shallow embedding of the call-handling agent (`src/agent/agent.py`,
`src/agent/tools.py`) of the `digisapp/axles-app` repository, together with
proofs settling the frozen specification claims.

Conventions of the embedding:
* Python dict rows become structures whose fields keep the source column
  names; nullable columns become `Option` fields.
* The external persistence store (Supabase) is modelled by explicit table
  values (`List` of rows) threaded through the functions; an operation the
  source performs inside a `try` block that can fail is modelled with
  `Except` where a claim depends on the failure branch.
* Python truthiness on optional strings (`if x:`) is `pyTruthyStr`:
  `none` and `some ""` are falsy.
* Timestamps are integers; `now` is passed explicitly where the source
  reads the clock.
-/

namespace Axles

/-- Python truthiness of an optional string: `None` and `""` are falsy. -/
def pyTruthyStr : Option String → Bool
  | none => false
  | some s => !(s = "")

/-- Python truthiness of an optional natural (e.g. a duration): `None` and
`0` are falsy. -/
def pyTruthyNat : Option Nat → Bool
  | none => false
  | some n => !(n = 0)

/-- Python `a or b` on an optional string with a string fallback: `a` when
truthy, else `b`. -/
def pyOrStr (a : Option String) (b : String) : String :=
  match a with
  | some s => if s = "" then b else s
  | none => b

/-- Python `a or b` on two optional strings, keeping the option. -/
def pyOrOpt (a b : Option String) : Option String :=
  if pyTruthyStr a then a else b

/-- Rendering of an optional string inside a Python f-string: `None`
renders as the text `"None"`. -/
def pyStrOfOpt : Option String → String
  | some s => s
  | none => "None"

/-- Substring containment on the underlying character lists, embedding the
Python `needle in hay` test on strings. -/
def strContains (hay needle : String) : Bool :=
  (List.range (hay.data.length + 1)).any
    (fun i => needle.data.isPrefixOf (hay.data.drop i))

/-!
The embedding works on the character-list representation of strings
(structurally recursive operations, so that concrete witnesses evaluate
inside the kernel); each `py…` helper below is the Lean rendering of the
corresponding Python string operation.
-/

/-- Python `s.lower()` (the source compares ASCII names and pins). -/
def pyLower (s : String) : String := ⟨s.data.map Char.toLower⟩

/-- Python `s.startswith(p)`. -/
def pyStartsWith (s p : String) : Bool := p.data.isPrefixOf s.data

/-- Python `s[n:]`. -/
def pyDrop (s : String) (n : Nat) : String := ⟨s.data.drop n⟩

/-- Python `s[:n]`. -/
def pyTake (s : String) (n : Nat) : String := ⟨s.data.take n⟩

/-- Python `s.strip()`. -/
def pyStrip (s : String) : String :=
  ⟨((s.data.dropWhile Char.isWhitespace).reverse.dropWhile Char.isWhitespace).reverse⟩

/-- Python `len(s)`. -/
def pyLen (s : String) : Nat := s.data.length

/-- Python `c in s` for a single character. -/
def pyContainsChar (s : String) (c : Char) : Bool := s.data.contains c

/-- Python `s.split(sep)[0]` for a one-character separator: everything
before the first occurrence. -/
def pySplitFirst (s : String) (c : Char) : String :=
  ⟨s.data.takeWhile (fun a => !(a == c))⟩

/-! ## Staff directory (`tools.py`, `StaffAuthTools`) -/

/-- One row of the `dealer_staff` table (`StaffCredential` in the spec). -/
structure StaffCred where
  id : Nat
  dealer_id : String
  name : String
  voice_pin : String
  is_active : Bool
  can_view_costs : Bool
  can_view_margins : Bool
  can_view_all_leads : Bool
  failed_attempts : Option Nat
  locked_until : Option Int
  last_access_at : Option Int
  access_count : Option Nat
  deriving Repr, DecidableEq

/-- One row of the `dealer_staff_access_logs` table (`AccessLogEntry`). -/
structure LogEntry where
  dealer_id : Option String
  staff_id : Option Nat
  caller_phone : Option String
  auth_success : Bool
  auth_method : Option String
  query : Option String
  query_type : Option String
  response_summary : Option String
  deriving Repr, DecidableEq

/-- The slice of the persistence store touched by staff authentication:
the `dealer_staff` table and the append-only access log. -/
structure AuthDB where
  staff : List StaffCred
  logs : List LogEntry
  deriving Repr, DecidableEq

/-- Per-session state of `StaffAuthTools` (`tools.py` line 519): the
dealer id the instance was created with and the staff member the session
has authenticated, if any. -/
structure StaffAuthToolsState where
  dealer_id : String
  authenticated_staff : Option StaffCred
  deriving Repr, DecidableEq

/-- `verify_pin`: message for the no-PIN-match denial. -/
def invalidPinMsg : String := "Invalid PIN. Please try again."

/-- `verify_pin`: message for the PIN-match-but-name-mismatch denial. -/
def nameMismatchMsg : String :=
  "I couldn\x27t verify that name and PIN combination. Please try again."

/-- `verify_pin`: message for the lockout denial. -/
def lockedMsg : String :=
  "This account is temporarily locked. Please try again later."

/-- `StaffAuthTools.query_internal_data`: tools-level unauthenticated
rejection. -/
def toolsAuthFirstMsg : String :=
  "You need to authenticate first. Please provide your name and PIN."

/-- `AxlesAgent.query_internal_data`: agent-level unauthenticated
rejection. -/
def agentAuthFirstMsg : String :=
  "You need to authenticate first. Please tell me your name and PIN."

/-- `AxlesAgent.verify_staff_pin`: rejection on a line with no staff
tools (no resolved dealer). -/
def staffNotAvailMsg : String :=
  "Staff authentication is not available for this line."

/-- `AxlesAgent.query_internal_data`: rejection on a line with no staff
tools (no resolved dealer). -/
def dataNotAvailMsg : String :=
  "Internal data access is not available for this line."

/-- The supabase filter of `verify_pin` (`tools.py` lines 548-550):
active credentials of this dealer whose `voice_pin` equals the supplied
pin. -/
def pinMatches (dealerId pin : String) (s : StaffCred) : Bool :=
  s.dealer_id == dealerId && s.voice_pin == pin && s.is_active

/-- The name check of `verify_pin` (`tools.py` line 568): the claimed
name, lowercased, is a substring of the stored name, lowercased. -/
def nameMatches (claimed : String) (s : StaffCred) : Bool :=
  strContains (pyLower s.name) (pyLower claimed)

/-- The lockout test of `verify_pin` (`tools.py` lines 586-589): a
truthy `locked_until` strictly in the future. -/
def isLocked (now : Int) (s : StaffCred) : Bool :=
  match s.locked_until with
  | some t => t > now
  | none => false

/-- Result of one `StaffAuthTools.verify_pin` call: the returned triple
`(success, staff, message)` plus the store and session state after the
call. -/
structure VerifyOutcome where
  success : Bool
  staff : Option StaffCred
  message : String
  db : AuthDB
  tools : StaffAuthToolsState
  deriving Repr, DecidableEq

/-- `StaffAuthTools.verify_pin` (`tools.py` lines 528-616).

Filters the dealer's active credentials by PIN; on no match logs a failed
attempt and denies; otherwise takes the first credential whose stored
name contains the claimed name (case-insensitively); on no name match
logs a failed attempt and denies with the distinct message; if the
selected credential is locked (`locked_until` in the future) denies
without any store write; otherwise resets `failed_attempts`, bumps
`access_count`, stamps `last_access_at`, logs success, and records the
staff member as the session's authenticated staff. The source's
`except` branch only concerns failures of the external store and is not
part of the modelled domain. -/
def verify_pin (db : AuthDB) (tools : StaffAuthToolsState)
    (name pin : String) (caller_phone : Option String) (now : Int) :
    VerifyOutcome :=
  let ms := db.staff.filter (pinMatches tools.dealer_id pin)
  if ms.isEmpty then
    let log : LogEntry :=
      { dealer_id := some tools.dealer_id, staff_id := none,
        caller_phone := caller_phone, auth_success := false,
        auth_method := some "pin",
        query := some "PIN verification attempt - invalid PIN",
        query_type := none, response_summary := none }
    { success := false, staff := none, message := invalidPinMsg,
      db := { db with logs := db.logs ++ [log] }, tools := tools }
  else
    match ms.find? (nameMatches name) with
    | none =>
      let log : LogEntry :=
        { dealer_id := some tools.dealer_id, staff_id := none,
          caller_phone := caller_phone, auth_success := false,
          auth_method := some "name_and_pin",
          query := some ("PIN verification attempt - name mismatch: " ++ name),
          query_type := none, response_summary := none }
      { success := false, staff := none, message := nameMismatchMsg,
        db := { db with logs := db.logs ++ [log] }, tools := tools }
    | some staff =>
      if isLocked now staff then
        { success := false, staff := none, message := lockedMsg,
          db := db, tools := tools }
      else
        let staffUpdated := db.staff.map (fun r =>
          if r.id == staff.id then
            { r with last_access_at := some now,
                     access_count := some ((staff.access_count.getD 0) + 1),
                     failed_attempts := some 0 }
          else r)
        let log : LogEntry :=
          { dealer_id := some tools.dealer_id, staff_id := some staff.id,
            caller_phone := caller_phone, auth_success := true,
            auth_method := some "name_and_pin",
            query := some "Successful authentication",
            query_type := none, response_summary := none }
        { success := true, staff := some staff,
          message := "Access granted. Welcome back, " ++ staff.name ++ "!",
          db := { staff := staffUpdated, logs := db.logs ++ [log] },
          tools := { tools with authenticated_staff := some staff } }

/-- The optional filters dict built by `AxlesAgent.query_internal_data`
(`agent.py` lines 247-251). -/
structure QueryFilters where
  status : Option String
  today : Bool
  deriving Repr, DecidableEq

/-- `StaffAuthTools.query_internal_data` (`tools.py` lines 618-656): the
authentication gate in front of the internal-data dispatch. The
authenticated dispatch (`_query_inventory`, `_query_leads`, ...) only
reads the external store and renders text for speech, so it is abstracted
as the parameter `fetch`; every claim about this operation quantifies
over all behaviours of `fetch`. -/
def toolsQueryInternalData
    (fetch : StaffCred → String → Option String → Option QueryFilters → String)
    (tools : StaffAuthToolsState) (query_type : String) (query : Option String)
    (filters : Option QueryFilters) : String :=
  match tools.authenticated_staff with
  | none => toolsAuthFirstMsg
  | some staff => fetch staff query_type query filters

/-! ## Tenant registry (`tools.py`, dealer voice agent lookup) -/

/-- The dealer profile joined into a dealer voice agent row
(`profiles!dealer_id` in `get_dealer_voice_agent_by_phone`). -/
structure Profile where
  id : String
  company_name : Option String
  phone : Option String
  email : Option String
  deriving Repr, DecidableEq

/-- One row of the `dealer_voice_agents` table (`TenantConfig` in the
spec), with the columns the agent reads. -/
structure DealerVoiceAgent where
  id : String
  dealer_id : Option String
  phone_number : String
  is_active : Bool
  business_name : Option String
  business_description : Option String
  instructions : Option String
  agent_name : Option String
  voice : Option String
  greeting : Option String
  after_hours_message : Option String
  business_hours : Option String
  can_transfer_calls : Option Bool
  transfer_phone_number : Option String
  minutes_used : Option Nat
  minutes_included : Option Nat
  dealer : Option Profile
  deriving Repr, DecidableEq

/-- Canonicalization of the dialed identifier
(`get_dealer_voice_agent_by_phone`, `tools.py` lines 91-95): strip
whitespace, a leading `sip:` scheme marker, and any trailing `@host`
suffix. -/
def cleanNumber (phone_number : String) : String :=
  let c := pyStrip phone_number
  let c := if pyStartsWith c "sip:" then pyDrop c 4 else c
  if pyContainsChar c '@' then pySplitFirst c '@' else c

/-- The store query of `get_dealer_voice_agent_by_phone`
(`tools.py` lines 98-105): the active row whose `phone_number` equals
the canonical number. The spec invariant says at most one active row
matches; `find?` takes the first. -/
def lookupActive (registry : List DealerVoiceAgent) (num : String) :
    Option DealerVoiceAgent :=
  registry.find? (fun t => t.phone_number == num && t.is_active)

/-- The alternate canonical form
(`get_dealer_voice_agent_by_phone`, `tools.py` lines 111-117): toggle
the leading country-code digit between the `+`-prefixed international
form and the bare 11-digit national form; any other shape has no
alternate. -/
def altNumber (clean : String) : Option String :=
  if pyStartsWith clean "+1" then some (pyDrop clean 1)
  else if pyStartsWith clean "1" && pyLen clean == 11 then some ("+" ++ clean)
  else none

/-- `get_dealer_voice_agent_by_phone` (`tools.py` lines 78-138).
`store` is the external tenant store: `Except.error` is the source's
`except` branch (any store failure), which is logged and degrades to
`none`. -/
def get_dealer_voice_agent_by_phone
    (store : Except String (List DealerVoiceAgent)) (phone_number : String) :
    Option DealerVoiceAgent :=
  match store with
  | .error _ => none
  | .ok registry =>
    let clean := cleanNumber phone_number
    match lookupActive registry clean with
    | some t => some t
    | none =>
      match altNumber clean with
      | some alt => lookupActive registry alt
      | none => none

/-! ## Settings selection (`tools.py` defaults, `agent.py` entrypoint) -/

/-- The settings dict threaded into the agent; optional fields model dict
keys that are present only in some of the dicts the source builds. -/
structure Settings where
  voice : Option String
  agent_name : Option String
  greeting_message : Option String
  instructions : Option String
  model : Option String
  temperature : Option Float
  is_active : Option Bool
  deriving Repr

/-- The `instructions` text of `DEFAULT_SETTINGS` (`tools.py` lines
21-42). -/
def defaultInstructionsText : String :=
  "You are a helpful AI assistant for AxlesAI, a marketplace for trucks, trailers, and heavy equipment.\n" ++
  "\n" ++
  "Your role is to:\n" ++
  "1. Answer questions about available inventory (trucks, trailers, heavy equipment)\n" ++
  "2. Help callers find equipment that matches their needs\n" ++
  "3. Provide pricing and specification information\n" ++
  "4. Capture lead information for follow-up by dealers\n" ++
  "5. Transfer calls to dealers when requested\n" ++
  "\n" ++
  "Guidelines:\n" ++
  "- Be friendly, professional, and knowledgeable about commercial trucks and trailers\n" ++
  "- Ask clarifying questions to understand what the caller is looking for\n" ++
  "- When discussing equipment, mention key specs like year, make, model, price, and condition\n" ++
  "- If a caller is interested in a specific unit, offer to capture their information for a callback\n" ++
  "- Keep responses concise for phone conversation (2-3 sentences max)\n" ++
  "- If you don\x27t have information, offer to connect them with a dealer\n" ++
  "\n" ++
  "Common equipment types:\n" ++
  "- Trailers: flatbed, dry van, reefer, lowboy, drop deck, dump, tanker\n" ++
  "- Trucks: semi trucks, day cabs, sleeper cabs, box trucks, dump trucks\n" ++
  "- Heavy equipment: excavators, loaders, bulldozers, cranes\n"

/-- `DEFAULT_SETTINGS` (`tools.py` lines 17-46): the settings used when
the database fetch fails or returns nothing. -/
def DEFAULT_SETTINGS : Settings :=
  { voice := some "Sal",
    agent_name := some "Axles AI",
    greeting_message := some ("Hello! Thanks for calling Axles AI, your marketplace for trucks, trailers, and heavy equipment. How can I help you find what you\x27re looking for today?"),
    instructions := some defaultInstructionsText,
    model := some "grok-2-public",
    temperature := some 0.7,
    is_active := some true }

/-- `get_ai_agent_settings` (`tools.py` lines 60-75): the global
settings row when the store returns one; `DEFAULT_SETTINGS` when the
store returns nothing or fails. -/
def get_ai_agent_settings (store : Except String (Option Settings)) : Settings :=
  match store with
  | .ok (some s) => s
  | .ok none => DEFAULT_SETTINGS
  | .error _ => DEFAULT_SETTINGS

/-- `build_dealer_instructions` (`tools.py` lines 141-182). -/
def build_dealer_instructions (d : DealerVoiceAgent) : String :=
  let business_name := pyOrStr d.business_name
    (pyOrStr (d.dealer.bind (fun p => p.company_name)) "the dealership")
  let business_desc := pyOrStr d.business_description ""
  let custom_instructions := pyOrStr d.instructions ""
  "You are " ++ (d.agent_name.getD "an AI assistant") ++ " for " ++ business_name ++ ".\n" ++
  "\n" ++
  (if business_desc = "" then "" else "About the business: " ++ business_desc) ++ "\n" ++
  "\n" ++
  "Your role is to:\n" ++
  "1. Answer questions about " ++ business_name ++ "\x27s available inventory (trucks, trailers, equipment)\n" ++
  "2. Help callers find equipment that matches their needs\n" ++
  "3. Provide pricing and specification information from their inventory\n" ++
  "4. Capture lead information for follow-up by the " ++ business_name ++ " team\n" ++
  "5. Transfer calls to the team when requested\n" ++
  "\n" ++
  "Guidelines:\n" ++
  "- Be friendly, professional, and knowledgeable about commercial trucks and trailers\n" ++
  "- Ask clarifying questions to understand what the caller is looking for\n" ++
  "- When discussing equipment, mention key specs like year, make, model, price, and condition\n" ++
  "- If a caller is interested in a specific unit, offer to capture their information for a callback\n" ++
  "- Keep responses concise for phone conversation (2-3 sentences max)\n" ++
  "- You only have access to " ++ business_name ++ "\x27s inventory, not all marketplace listings\n" ++
  "\n" ++
  "STAFF AUTHENTICATION:\n" ++
  "If a caller identifies themselves as a staff member, employee, or salesperson and wants to access\n" ++
  "internal information (costs, margins, leads, customer data), you can authenticate them:\n" ++
  "1. Ask for their name\n" ++
  "2. Ask for their access PIN (4-6 digits)\n" ++
  "3. Use the verify_staff_pin tool with their name and PIN\n" ++
  "4. If authenticated, they can query internal data using query_internal_data tool\n" ++
  "5. Available queries: \x27inventory\x27 (with costs/margins if permitted), \x27leads\x27, \x27customer\x27 (lookup by name/phone), \x27pricing\x27 (by stock number), \x27stats\x27\n" ++
  "\n" ++
  "Example staff interactions:\n" ++
  "- \"Hi, I\x27m John from sales, I need to check on our inventory\" -> Ask for PIN to authenticate\n" ++
  "- \"What\x27s our cost on stock number 12345?\" -> Verify they\x27re authenticated, then query pricing\n" ++
  "- \"Any new leads today?\" -> Verify authenticated, then query leads with today filter\n" ++
  "\n" ++
  (if custom_instructions = "" then "" else "Additional instructions: " ++ custom_instructions) ++ "\n"

/-- The after-hours instructions f-string built inline in `entrypoint`
(`agent.py` lines 551-559); `business_name` is the entrypoint variable,
rendered as Python renders an f-string interpolation (`None` prints as
`None`). -/
def afterHoursInstructions (d : DealerVoiceAgent) (business_name : Option String) :
    String :=
  "You are " ++ (d.agent_name.getD "an AI assistant") ++ " for " ++ pyStrOfOpt business_name ++ ".\n" ++
  "\n" ++
  "The business is currently CLOSED. Your role is to:\n" ++
  "1. Let the caller know we are closed\n" ++
  "2. Capture their name, phone number, and what they\x27re interested in\n" ++
  "3. Assure them someone will call them back during business hours\n" ++
  "\n" ++
  "Keep the conversation brief and focused on capturing their information for a callback.\n" ++
  "Do not search inventory or provide detailed information - just capture the lead."

/-- The settings selection of `entrypoint` (`agent.py` lines 517-572):
dealer settings (after-hours or regular) when a dealer voice agent was
resolved, the global settings otherwise. `hoursOpen` is the external
`is_within_business_hours` predicate (its source is not part of the
core); `globalStore` is the external settings store read by
`get_ai_agent_settings`. -/
def selectSettings (hoursOpen : String → Bool)
    (globalStore : Except String (Option Settings))
    (dealer_agent : Option DealerVoiceAgent) : Settings :=
  match dealer_agent with
  | some d =>
    let business_name := pyOrOpt d.business_name (d.dealer.bind (fun p => p.company_name))
    let is_after_hours :=
      match d.business_hours with
      | some bh => !(bh = "") && !(hoursOpen bh)
      | none => false
    if is_after_hours then
      { voice := some (d.voice.getD "Sal"),
        agent_name := none,
        greeting_message := some (d.after_hours_message.getD
          "We are currently closed. Please leave your name and number and we will call you back."),
        instructions := some (afterHoursInstructions d business_name),
        model := none, temperature := none,
        is_active := some d.is_active }
    else
      { voice := some (d.voice.getD "Sal"),
        agent_name := none,
        greeting_message := some (d.greeting.getD "Thanks for calling! How can I help you today?"),
        instructions := some (build_dealer_instructions d),
        model := none, temperature := none,
        is_active := some d.is_active }
  | none => get_ai_agent_settings globalStore

/-- The tenant resolution step of `entrypoint` (`agent.py` lines
517-518): the lookup runs only when a called number was detected
(Python truthiness), otherwise the dealer agent stays `None`. -/
def resolveDealer (store : Except String (List DealerVoiceAgent))
    (called_number : Option String) : Option DealerVoiceAgent :=
  match called_number with
  | some n => if n = "" then none else get_dealer_voice_agent_by_phone store n
  | none => none

/-! ## Leads (`tools.py`, `LeadTools`) -/

/-- The slice of a `listings` row read by lead capture: its id and the
owning dealer (`user_id`). -/
structure Listing where
  id : String
  user_id : Option String
  deriving Repr, DecidableEq

/-- The lead row inserted by `LeadTools.capture_with_id`
(`tools.py` lines 430-445). -/
structure Lead where
  buyer_name : String
  buyer_phone : String
  buyer_email : String
  message : String
  status : String
  intent : Option String
  equipment_type : Option String
  created_at : Int
  listing_id : Option String
  user_id : Option String
  deriving Repr, DecidableEq

/-- `LeadTools.capture_with_id` (`tools.py` lines 404-463): determines
the owning dealer (the tools' pre-set `dealer_id`, else the owner of the
referenced listing, else unassigned), builds the lead row, and returns
the spoken confirmation. The store-generated lead id and the insert
failure branch are external and not modelled. -/
def capture_with_id (listings : List Listing)
    (dealer_id business_name : Option String) (now : Int)
    (name phone interest : String)
    (email listing_id intent equipment_type : Option String) :
    Lead × String :=
  let user_id := dealer_id
  let user_id :=
    if pyTruthyStr listing_id && !(pyTruthyStr user_id) then
      match listings.find? (fun l => l.id == listing_id.getD "") with
      | some l => l.user_id
      | none => user_id
    else user_id
  let lead : Lead :=
    { buyer_name := name, buyer_phone := phone,
      buyer_email := pyOrStr email "",
      message := interest, status := "new",
      intent := intent, equipment_type := equipment_type,
      created_at := now,
      listing_id := if pyTruthyStr listing_id then listing_id else none,
      user_id := if pyTruthyStr user_id then user_id else none }
  let intent_str := if pyTruthyStr intent then " to " ++ intent.getD "" else ""
  let msg :=
    if pyTruthyStr business_name then
      "I\x27ve captured your information. Someone from " ++ business_name.getD "" ++
      " will reach out to you at " ++ phone ++ " soon about " ++ interest ++ intent_str ++ "."
    else
      "I\x27ve captured your information. A dealer will reach out to you at " ++
      phone ++ " soon about " ++ interest ++ intent_str ++ "."
  (lead, msg)

/-! ## The agent (`agent.py`, `AxlesAgent`) -/

/-- The per-call fields of an `AxlesAgent` instance
(`agent.py` lines 56-88). `staff_tools` is the `StaffAuthTools`
instance, present exactly when the call resolved to a dealer. -/
structure AgentState where
  settings : Settings
  room_name : String
  caller_phone : Option String
  dealer_id : Option String
  business_name : Option String
  can_transfer : Bool
  transfer_number : Option String
  staff_tools : Option StaffAuthToolsState
  captured_lead_id : Option String
  caller_name : Option String
  interest : Option String
  equipment_type : Option String
  intent : Option String
  is_staff_authenticated : Bool

/-- `AxlesAgent.__init__` (`agent.py` lines 56-88): staff tools are
created only for a truthy dealer id; the session starts not
staff-authenticated. -/
def initAgent (settings : Settings) (room_name : String)
    (caller_phone dealer_id business_name : Option String)
    (can_transfer : Bool) (transfer_number : Option String) : AgentState :=
  { settings := settings, room_name := room_name,
    caller_phone := caller_phone, dealer_id := dealer_id,
    business_name := business_name, can_transfer := can_transfer,
    transfer_number := transfer_number,
    staff_tools :=
      if pyTruthyStr dealer_id then
        some { dealer_id := dealer_id.getD "", authenticated_staff := none }
      else none,
    captured_lead_id := none, caller_name := none, interest := none,
    equipment_type := none, intent := none,
    is_staff_authenticated := false }

/-- `AxlesAgent.capture_lead` (`agent.py` lines 131-180): fills in the
caller-id phone when none was given, delegates to
`LeadTools.capture_with_id` with the agent's dealer context, and stores
the captured fields on the session. The store-generated lead id is
external and not modelled. -/
def agent_capture_lead (listings : List Listing) (st : AgentState) (now : Int)
    (name interest : String)
    (email phone listing_id intent equipment_type : Option String) :
    Lead × String × AgentState :=
  let actual_phone := pyOrStr phone (pyOrStr st.caller_phone "unknown")
  let (lead, msg) := capture_with_id listings st.dealer_id st.business_name now
    name actual_phone interest email listing_id intent equipment_type
  (lead, msg,
    { st with caller_name := some name, interest := some interest,
              equipment_type := equipment_type, intent := intent })

/-- Result of one `AxlesAgent.verify_staff_pin` call: the spoken reply,
the store and session after the call, and the (internal) success flag. -/
structure AgentVerifyOutcome where
  reply : String
  db : AuthDB
  st : AgentState
  success : Bool

/-- `AxlesAgent.verify_staff_pin` (`agent.py` lines 182-222): refuses on
a line without staff tools; otherwise delegates to
`StaffAuthTools.verify_pin` and, on success, marks the session
staff-authenticated and appends the permission summary to the reply. -/
def agentVerifyStaffPin (db : AuthDB) (st : AgentState)
    (name pin : String) (now : Int) : AgentVerifyOutcome :=
  match st.staff_tools with
  | none => { reply := staffNotAvailMsg, db := db, st := st, success := false }
  | some tools =>
    let o := verify_pin db tools name pin st.caller_phone now
    match o.success, o.staff with
    | true, some staff_info =>
      let permissions :=
        (if staff_info.can_view_costs then ["costs"] else []) ++
        (if staff_info.can_view_margins then ["margins"] else []) ++
        (if staff_info.can_view_all_leads then ["all leads"] else [])
      let perm_str :=
        if permissions.isEmpty then "standard inventory and leads"
        else String.intercalate ", " permissions
      { reply := o.message ++ " You have access to " ++ perm_str ++
          ". What would you like to know?",
        db := o.db,
        st := { st with staff_tools := some o.tools,
                        is_staff_authenticated := true,
                        caller_name := some staff_info.name },
        success := true }
    | true, none =>
      -- dead branch: a successful verify_pin always carries a staff record
      { reply := o.message, db := o.db,
        st := { st with staff_tools := some o.tools }, success := false }
    | false, _ =>
      { reply := o.message, db := o.db,
        st := { st with staff_tools := some o.tools }, success := false }

/-- `AxlesAgent.query_internal_data` (`agent.py` lines 224-275): refuses
on a line without staff tools; refuses when the session is not
staff-authenticated; otherwise builds the filters dict, delegates to the
tools-level query, and logs the authenticated query. The session state
is not mutated by a query. -/
def agentQueryInternalData
    (fetch : StaffCred → String → Option String → Option QueryFilters → String)
    (db : AuthDB) (st : AgentState) (query_type : String)
    (query : Option String) (filter_status : Option String)
    (filter_today : Bool) : String × AuthDB :=
  match st.staff_tools with
  | none => (dataNotAvailMsg, db)
  | some tools =>
    if !st.is_staff_authenticated then (agentAuthFirstMsg, db)
    else
      let filters : Option QueryFilters :=
        if pyTruthyStr filter_status || filter_today then
          some { status := if pyTruthyStr filter_status then filter_status else none,
                 today := filter_today }
        else none
      let result := toolsQueryInternalData fetch tools query_type query filters
      match tools.authenticated_staff with
      | some staff =>
        let log : LogEntry :=
          { dealer_id := st.dealer_id, staff_id := some staff.id,
            caller_phone := none, auth_success := true, auth_method := none,
            query := if pyTruthyStr query then some (pyTake (query.getD "") 500) else none,
            query_type := some query_type,
            response_summary := if result = "" then none else some (pyTake result 200) }
        (result, { db with logs := db.logs ++ [log] })
      | none => (result, db)

/-- One tool invocation of the staff-facing session interface, as driven
by the conversational engine during the Active state. -/
inductive ToolCall where
  | verifyPin (name pin : String) (now : Int)
  | queryData (query_type : String) (query : Option String)
      (filter_status : Option String) (filter_today : Bool)

/-- A session trace: runs a list of tool invocations against one
session's state and the store, returning the final state, the final
store, and whether any `verify_staff_pin` call in the trace succeeded. -/
def runTrace
    (fetch : StaffCred → String → Option String → Option QueryFilters → String)
    (st : AgentState) (db : AuthDB) :
    List ToolCall → AgentState × AuthDB × Bool
  | [] => (st, db, false)
  | ToolCall.verifyPin name pin now :: rest =>
    let o := agentVerifyStaffPin db st name pin now
    let (st', db', anyRest) := runTrace fetch o.st o.db rest
    (st', db', o.success || anyRest)
  | ToolCall.queryData query_type query fs ft :: rest =>
    let (_, db2) := agentQueryInternalData fetch db st query_type query fs ft
    runTrace fetch st db2 rest

/-! ## Finalization (`agent.py` entrypoint, lines 644-702) and billing -/

/-- The `active_calls` entry for one call (`agent.py` lines 591-599). -/
structure CallInfo where
  start_time : Nat
  lead_id : Option String
  egress_id : Option String
  call_log_id : Option String
  caller_phone : Option String
  dealer_id : Option String
  dealer_voice_agent_id : Option String
  deriving Repr, DecidableEq

/-- The observable effects of the finalization block in `entrypoint`'s
`finally` clause. -/
structure FinalizeOutcome where
  call_duration : Nat
  call_minutes : Nat
  recording_url : Option String
  minutesIncrement : Option (String × Nat)
  leadUpdated : Bool
  callLogUpdated : Bool
  transcriptionScheduled : Bool
  deriving Repr, DecidableEq

/-- The finalization block (`agent.py` lines 644-702). `stopRec` is the
external `stop_recording` call: given the egress handle it returns the
recording URL and duration, each possibly absent (its own failure branch
returns both absent). `wall_elapsed` is the already-computed
`int(time.time() - call_start_time)`. The billing accrual, lead update,
call-log update, and transcription scheduling are returned as data;
`transcriptionScheduled` records whether the detached background task
was created (the task itself is fire-and-forget and never awaited by
this block). -/
def finalizeCall (stopRec : String → Option String × Option Nat)
    (wall_elapsed : Nat) (info : CallInfo)
    (agent_captured_lead_id : Option String) : FinalizeOutcome :=
  let call_duration := wall_elapsed
  let call_minutes := max 1 ((call_duration + 59) / 60)
  let lead_id := pyOrOpt info.lead_id agent_captured_lead_id
  let stopResult :=
    if pyTruthyStr info.egress_id then stopRec (info.egress_id.getD "")
    else ((none : Option String), (none : Option Nat))
  let recording_url := stopResult.1
  let recorded_duration := stopResult.2
  let call_duration :=
    if pyTruthyNat recorded_duration then recorded_duration.getD 0 else call_duration
  let call_minutes :=
    if pyTruthyNat recorded_duration then max 1 ((recorded_duration.getD 0 + 59) / 60)
    else call_minutes
  let minutesIncrement :=
    if pyTruthyStr info.dealer_voice_agent_id then
      some (info.dealer_voice_agent_id.getD "", call_minutes)
    else none
  let leadUpdated :=
    pyTruthyStr lead_id && (pyTruthyStr recording_url || !(call_duration = 0))
  let callLogUpdated := pyTruthyStr info.call_log_id
  let transcriptionScheduled :=
    callLogUpdated && pyTruthyStr recording_url &&
      !(call_duration = 0) && decide (call_duration > 5)
  { call_duration := call_duration, call_minutes := call_minutes,
    recording_url := recording_url, minutesIncrement := minutesIncrement,
    leadUpdated := leadUpdated, callLogUpdated := callLogUpdated,
    transcriptionScheduled := transcriptionScheduled }

/-- `increment_dealer_minutes` (`tools.py` lines 185-210): read the
dealer voice agent row, add the minutes to its `minutes_used`, write it
back. Returns the updated table and the function's boolean result. -/
def increment_dealer_minutes (table : List DealerVoiceAgent)
    (dealer_agent_id : String) (minutes : Nat) :
    List DealerVoiceAgent × Bool :=
  match table.find? (fun r => r.id == dealer_agent_id) with
  | some row =>
    let new_minutes := row.minutes_used.getD 0 + minutes
    (table.map (fun r =>
      if r.id == dealer_agent_id then { r with minutes_used := some new_minutes }
      else r), true)
  | none => (table, false)

/-- The billing sub-step of finalization (`agent.py` lines 664-666)
applied to the dealer voice agent table: accrues the computed minutes
exactly when a dealer voice agent id was recorded for the call. -/
def applyBilling (out : FinalizeOutcome) (table : List DealerVoiceAgent) :
    List DealerVoiceAgent :=
  match out.minutesIncrement with
  | some (i, m) => (increment_dealer_minutes table i m).1
  | none => table

/-! ## Spec-side definitions (from the spec's words, for refinement
claims) -/

/-- Modelled from the spec: `ceil(duration_seconds / 60)`, minimum 1 —
the billing-minutes formula as the spec states it. -/
def specCeilMinutes (d : Nat) : Nat :=
  max 1 (if d % 60 = 0 then d / 60 else d / 60 + 1)

/-- Modelled from the spec (amended claim C1): the final duration is the
duration returned by recording stop when a nonzero one is returned, and
otherwise the wall-clock elapsed seconds. -/
def specFinalDuration (stopRec : String → Option String × Option Nat)
    (wall_elapsed : Nat) (info : CallInfo) : Nat :=
  if pyTruthyStr info.egress_id then
    match (stopRec (info.egress_id.getD "")).2 with
    | some d => if d = 0 then wall_elapsed else d
    | none => wall_elapsed
  else wall_elapsed

/-- Modelled from the spec (claim C1 as frozen): the final duration is
the duration returned by recording stop whenever one is returned —
including zero — and otherwise the wall-clock elapsed seconds. -/
def claimFinalDuration (stopRec : String → Option String × Option Nat)
    (wall_elapsed : Nat) (info : CallInfo) : Nat :=
  if pyTruthyStr info.egress_id then
    match (stopRec (info.egress_id.getD "")).2 with
    | some d => d
    | none => wall_elapsed
  else wall_elapsed

/-- Modelled from the spec (claim C5): the lead-owner precedence as the
spec states it — the tenant bound to the dialed line, else the owner of
the referenced listing, else unassigned. -/
def leadOwnerSpec (listings : List Listing)
    (dealer_id listing_id : Option String) : Option String :=
  match dealer_id with
  | some d => some d
  | none =>
    match listing_id with
    | some lid => (listings.find? (fun l => l.id == lid)).bind (fun l => l.user_id)
    | none => none

/-! ## Concrete fixtures used by witnesses and counterexamples -/

/-- A staff credential of dealer `d`: active, PIN `1234`, not locked. -/
def sJohn : StaffCred :=
  { id := 1, dealer_id := "d", name := "John Smith", voice_pin := "1234",
    is_active := true, can_view_costs := true, can_view_margins := false,
    can_view_all_leads := false, failed_attempts := some 0,
    locked_until := none, last_access_at := none, access_count := some 3 }

/-- The same credential but locked until time 100. -/
def sLocked : StaffCred :=
  { sJohn with id := 2, locked_until := some 100 }

/-- Staff tools bound to dealer `d` with no authenticated staff. -/
def toolsD : StaffAuthToolsState := { dealer_id := "d", authenticated_staff := none }

/-- Store holding only the unlocked credential. -/
def dbJohn : AuthDB := { staff := [sJohn], logs := [] }

/-- Store holding only the locked credential. -/
def dbLock : AuthDB := { staff := [sLocked], logs := [] }

/-- A session on the global (main) line: no dealer id, hence no staff
tools. -/
def stGlobal : AgentState :=
  initAgent DEFAULT_SETTINGS "room-1" (some "+15550001111") none none false none

/-- A session on a dealer line, not yet staff-authenticated. -/
def stDealer : AgentState :=
  initAgent DEFAULT_SETTINGS "room-2" (some "+15550001111") (some "dealer-1")
    (some "Acme Trucks") false none

/-- A trivial internal-data dispatch used to instantiate `fetch`. -/
def fetch0 : StaffCred → String → Option String → Option QueryFilters → String :=
  fun _ _ _ _ => "ok"

/-- An empty staff store. -/
def dbEmpty : AuthDB := { staff := [], logs := [] }

/-- A registered dealer voice agent row. -/
def dvaRow : DealerVoiceAgent :=
  { id := "dva-1", dealer_id := some "dealer-1",
    phone_number := "+15551234567", is_active := true,
    business_name := some "Acme Trucks", business_description := none,
    instructions := none, agent_name := some "Sally", voice := some "Sal",
    greeting := none, after_hours_message := none, business_hours := none,
    can_transfer_calls := some false, transfer_phone_number := none,
    minutes_used := some 7, minutes_included := some 500, dealer := none }

/-- The same dealer registered under the bare national form. -/
def dvaRowBare : DealerVoiceAgent := { dvaRow with phone_number := "15551234567" }

/-- The dealer voice agent row as billing reads it (7 minutes used). -/
def dvaBilling : DealerVoiceAgent := dvaRow

/-- An `active_calls` entry for a recorded dealer call with a call log. -/
def infoDealerCall : CallInfo :=
  { start_time := 0, lead_id := none, egress_id := some "eg-1",
    call_log_id := some "cl-1", caller_phone := some "+15550001111",
    dealer_id := some "dealer-1", dealer_voice_agent_id := some "dva-1" }

/-- The same call but with no call-log record (creation failed or the
caller id was absent). -/
def infoNoCallLog : CallInfo := { infoDealerCall with call_log_id := none }

/-! # Claims -/

/-- Helper: the core arithmetic of the billing formula — the source's
round-up expression equals the spec's `ceil(d / 60)`, minimum 1. -/
theorem ceil_minutes_eq_spec (d : Nat) :
    max 1 ((d + 59) / 60) = specCeilMinutes d := by
  unfold specCeilMinutes
  by_cases h : d % 60 = 0 <;> simp only [h, if_true, if_false, reduceIte] <;> omega

/-- **C6** (confirmed). For every dialed number and every failure of the
underlying tenant store (error, or absent input): tenant resolution
returns `none` — it cannot raise, being a total function — so the
entrypoint selects the global settings; and the global-settings fetch
itself degrades to `DEFAULT_SETTINGS` when its store fails. -/
theorem C6_resolution_degrades_to_global
    (hoursOpen : String → Bool) (globalStore : Except String (Option Settings))
    (called_number : Option String) (e : String)
    (store : Except String (List DealerVoiceAgent)) :
    resolveDealer (Except.error e) called_number = none
    ∧ selectSettings hoursOpen globalStore (resolveDealer (Except.error e) called_number)
        = get_ai_agent_settings globalStore
    ∧ resolveDealer store none = none
    ∧ selectSettings hoursOpen globalStore (resolveDealer store none)
        = get_ai_agent_settings globalStore
    ∧ get_ai_agent_settings (Except.error e) = DEFAULT_SETTINGS := by
  have h1 : resolveDealer (Except.error e) called_number = none := by
    cases called_number with
    | none => rfl
    | some n =>
      simp only [resolveDealer, get_dealer_voice_agent_by_phone]
      split <;> rfl
  refine ⟨h1, ?_, rfl, rfl, rfl⟩
  rw [h1]
  rfl

/-- **C6 witness**: the theorem instantiated at a concrete failing store
and a concrete dialed number. -/
theorem C6_witness :
    resolveDealer (Except.error "timeout") (some "+15551234567") = none
    ∧ get_ai_agent_settings (Except.error "timeout") = DEFAULT_SETTINGS := by
  have h := C6_resolution_degrades_to_global (fun _ => true) (Except.ok none)
    (some "+15551234567") "timeout" (Except.ok [])
  exact ⟨h.1, h.2.2.2.2⟩

/-- **C3** (confirmed). An exact match on the canonical number is
returned as-is; when the exact match fails, the lookup retries exactly
once, with exactly the one alternate produced by `altNumber` — the
toggle of the leading country-code digit, as witnessed concretely on
both directions of the `+15551234567` / `15551234567` pair — so a
tenant registered under either form is found from the other. -/
theorem C3_alternate_form_matching
    (registry : List DealerVoiceAgent) (t : DealerVoiceAgent) (q : String) :
    (lookupActive registry (cleanNumber q) = some t →
      get_dealer_voice_agent_by_phone (Except.ok registry) q = some t)
    ∧ (lookupActive registry (cleanNumber q) = none →
      get_dealer_voice_agent_by_phone (Except.ok registry) q
        = (altNumber (cleanNumber q)).bind (lookupActive registry))
    ∧ altNumber "+15551234567" = some "15551234567"
    ∧ altNumber "15551234567" = some "+15551234567"
    ∧ (lookupActive registry "+15551234567" = some t →
        lookupActive registry "15551234567" = none →
        get_dealer_voice_agent_by_phone (Except.ok registry) "15551234567" = some t)
    ∧ (lookupActive registry "15551234567" = some t →
        lookupActive registry "+15551234567" = none →
        get_dealer_voice_agent_by_phone (Except.ok registry) "+15551234567" = some t) := by
  have hexact : ∀ (r : String), lookupActive registry (cleanNumber r) = some t →
      get_dealer_voice_agent_by_phone (Except.ok registry) r = some t := by
    intro r h
    simp only [get_dealer_voice_agent_by_phone, h]
  have halt : ∀ (r : String), lookupActive registry (cleanNumber r) = none →
      get_dealer_voice_agent_by_phone (Except.ok registry) r
        = (altNumber (cleanNumber r)).bind (lookupActive registry) := by
    intro r h
    simp only [get_dealer_voice_agent_by_phone, h]
    cases altNumber (cleanNumber r) <;> rfl
  refine ⟨hexact q, halt q, rfl, rfl, ?_, ?_⟩
  · intro hplus hbare
    have hclean : cleanNumber "15551234567" = "15551234567" := rfl
    have h2 := halt "15551234567" (by rw [hclean]; exact hbare)
    rw [h2, hclean]
    exact hplus
  · intro hbare hplus
    have hclean : cleanNumber "+15551234567" = "+15551234567" := rfl
    have h2 := halt "+15551234567" (by rw [hclean]; exact hplus)
    rw [h2, hclean]
    exact hbare

/-- **C3 witness**: both directions on a concrete one-row registry — the
dealer registered under `"+15551234567"` is found when `"15551234567"`
is dialed, and the dealer registered under `"15551234567"` is found
when `"+15551234567"` is dialed. -/
theorem C3_witness :
    get_dealer_voice_agent_by_phone (Except.ok [dvaRow]) "15551234567" = some dvaRow
    ∧ get_dealer_voice_agent_by_phone (Except.ok [dvaRowBare]) "+15551234567"
        = some dvaRowBare := by
  constructor
  · exact (C3_alternate_form_matching [dvaRow] dvaRow "15551234567").2.2.2.2.1
      (by decide) (by decide)
  · exact (C3_alternate_form_matching [dvaRowBare] dvaRowBare "+15551234567").2.2.2.2.2
      (by decide) (by decide)

/-- **C5** (confirmed). The owner of a captured lead follows the spec's
precedence — the tenant bound to the dialed line, else the owner of the
referenced listing, else unassigned — for every `capture_lead`
invocation (under the well-formedness assumption that ids are not the
empty string, which Python treats as falsy); in particular, on a dealer
line the lead's tenant is the dealer even with no listing id given. -/
theorem C5_lead_owner_precedence
    (listings : List Listing) (st : AgentState) (now : Int)
    (name interest : String)
    (email phone listing_id intent equipment_type : Option String)
    (hd : st.dealer_id ≠ some "") (hl : listing_id ≠ some "")
    (hu : ∀ l ∈ listings, l.user_id ≠ some "") :
    (agent_capture_lead listings st now name interest email phone listing_id
        intent equipment_type).1.user_id
      = leadOwnerSpec listings st.dealer_id listing_id := by
  unfold agent_capture_lead capture_with_id leadOwnerSpec
  cases hdealer : st.dealer_id with
  | some d =>
    have hdne : ¬(d = "") := fun h => hd (by rw [hdealer, h])
    simp [pyTruthyStr, hdne]
  | none =>
    cases hlist : listing_id with
    | none => simp [pyTruthyStr]
    | some lid =>
      have hlne : ¬(lid = "") := fun h => hl (by rw [hlist, h])
      simp only [pyTruthyStr, hlne, decide_False, Bool.not_false, Bool.and_true,
        Bool.not_true, Bool.and_false, if_true, if_false, Option.getD]
      cases hfind : listings.find? (fun l => l.id == lid) with
      | none => simp
      | some l =>
        have hmem : l ∈ listings := List.mem_of_find?_eq_some hfind
        have hune : l.user_id ≠ some "" := hu l hmem
        simp only [Option.bind]
        cases huser : l.user_id with
        | none => simp [pyTruthyStr]
        | some u =>
          have : ¬(u = "") := fun h => hune (by rw [huser, h])
          simp [pyTruthyStr, this]

/-- **C5 witness**: on a dealer-line session with no listing id, the
captured lead's owner is the dealer. -/
theorem C5_witness :
    (agent_capture_lead [] stDealer 0 "Jane" "flatbed trailer"
        none none none none none).1.user_id = some "dealer-1" := by
  have h := C5_lead_owner_precedence [] stDealer 0 "Jane" "flatbed trailer"
    none none none none none (by decide) (by decide)
    (fun l hl => absurd hl (List.not_mem_nil l))
  rw [h]
  rfl

/-- **C8** (confirmed). When the PIN-and-name match selects a credential
whose lockout is still in the future, `verify_pin` denies immediately
with the lockout message, returns no staff, and leaves both the store
(credentials **and** access log — no attempt is consumed, no counter
moves) and the session state completely unchanged. -/
theorem C8_locked_credential_denied_without_mutation
    (db : AuthDB) (tools : StaffAuthToolsState) (name pin : String)
    (caller_phone : Option String) (now : Int) (s : StaffCred)
    (hfind : (db.staff.filter (pinMatches tools.dealer_id pin)).find?
        (nameMatches name) = some s)
    (hlock : isLocked now s = true) :
    verify_pin db tools name pin caller_phone now
      = { success := false, staff := none, message := lockedMsg,
          db := db, tools := tools } := by
  have hne : (db.staff.filter (pinMatches tools.dealer_id pin)).isEmpty = false := by
    rw [List.isEmpty_eq_false]
    intro hnil
    rw [hnil] at hfind
    simp at hfind
  simp [verify_pin, hne, hfind, hlock]

/-- **C8 witness**: the locked credential of dealer `d` (locked until
time 100, queried at time 0) with matching PIN and name is denied with
the lockout message and nothing changes. -/
theorem C8_witness :
    verify_pin dbLock toolsD "john" "1234" none 0
      = { success := false, staff := none, message := lockedMsg,
          db := dbLock, tools := toolsD } :=
  C8_locked_credential_denied_without_mutation dbLock toolsD "john" "1234" none 0
    sLocked (by decide) (by decide)

/-- Helper: `verify_pin` when no active credential of the tenant matches
the PIN. -/
theorem verify_pin_eq_of_no_pin_match
    (db : AuthDB) (tools : StaffAuthToolsState) (name pin : String)
    (cp : Option String) (now : Int)
    (h : (db.staff.filter (pinMatches tools.dealer_id pin)).isEmpty = true) :
    verify_pin db tools name pin cp now
      = { success := false, staff := none, message := invalidPinMsg,
          db := { staff := db.staff, logs := db.logs ++
            [{ dealer_id := some tools.dealer_id, staff_id := none,
               caller_phone := cp, auth_success := false,
               auth_method := some "pin",
               query := some "PIN verification attempt - invalid PIN",
               query_type := none, response_summary := none }] },
          tools := tools } := by
  simp [verify_pin, h]

/-- Helper: `verify_pin` when the PIN matches but no stored name
contains the claimed name. -/
theorem verify_pin_eq_of_name_mismatch
    (db : AuthDB) (tools : StaffAuthToolsState) (name pin : String)
    (cp : Option String) (now : Int)
    (hne : (db.staff.filter (pinMatches tools.dealer_id pin)).isEmpty = false)
    (hfind : (db.staff.filter (pinMatches tools.dealer_id pin)).find?
        (nameMatches name) = none) :
    verify_pin db tools name pin cp now
      = { success := false, staff := none, message := nameMismatchMsg,
          db := { staff := db.staff, logs := db.logs ++
            [{ dealer_id := some tools.dealer_id, staff_id := none,
               caller_phone := cp, auth_success := false,
               auth_method := some "name_and_pin",
               query := some ("PIN verification attempt - name mismatch: " ++ name),
               query_type := none, response_summary := none }] },
          tools := tools } := by
  simp [verify_pin, hne, hfind]

/-- Helper: `verify_pin` when the selected credential is locked. -/
theorem verify_pin_eq_of_locked
    (db : AuthDB) (tools : StaffAuthToolsState) (name pin : String)
    (cp : Option String) (now : Int) (s : StaffCred)
    (hfind : (db.staff.filter (pinMatches tools.dealer_id pin)).find?
        (nameMatches name) = some s)
    (hlock : isLocked now s = true) :
    verify_pin db tools name pin cp now
      = { success := false, staff := none, message := lockedMsg,
          db := db, tools := tools } := by
  have hne : (db.staff.filter (pinMatches tools.dealer_id pin)).isEmpty = false := by
    rw [List.isEmpty_eq_false]
    intro hnil
    rw [hnil] at hfind
    simp at hfind
  simp [verify_pin, hne, hfind, hlock]

/-- Helper: `verify_pin` on success — the selected credential is
returned, its row is updated, a success entry is logged, and the session
records the authenticated staff. -/
theorem verify_pin_eq_of_success
    (db : AuthDB) (tools : StaffAuthToolsState) (name pin : String)
    (cp : Option String) (now : Int) (s : StaffCred)
    (hfind : (db.staff.filter (pinMatches tools.dealer_id pin)).find?
        (nameMatches name) = some s)
    (hlock : isLocked now s = false) :
    verify_pin db tools name pin cp now
      = { success := true, staff := some s,
          message := "Access granted. Welcome back, " ++ s.name ++ "!",
          db := { staff := db.staff.map (fun r =>
                      if r.id == s.id then
                        { r with last_access_at := some now,
                                 access_count := some (s.access_count.getD 0 + 1),
                                 failed_attempts := some 0 }
                      else r),
                  logs := db.logs ++
                    [{ dealer_id := some tools.dealer_id, staff_id := some s.id,
                       caller_phone := cp, auth_success := true,
                       auth_method := some "name_and_pin",
                       query := some "Successful authentication",
                       query_type := none, response_summary := none }] },
          tools := { tools with authenticated_staff := some s } } := by
  have hne : (db.staff.filter (pinMatches tools.dealer_id pin)).isEmpty = false := by
    rw [List.isEmpty_eq_false]
    intro hnil
    rw [hnil] at hfind
    simp at hfind
  simp [verify_pin, hne, hfind, hlock]

/-- Helper: a credential selected by the PIN filter and name check is an
active, PIN-matching credential of the tenant, stored in the table. -/
theorem find?_pin_name_props
    (db : AuthDB) (tools : StaffAuthToolsState) (name pin : String) (s : StaffCred)
    (hfind : (db.staff.filter (pinMatches tools.dealer_id pin)).find?
        (nameMatches name) = some s) :
    s ∈ db.staff ∧ s.dealer_id = tools.dealer_id ∧ s.voice_pin = pin
      ∧ s.is_active = true ∧ nameMatches name s = true := by
  have hmem := List.mem_of_find?_eq_some hfind
  have hname := List.find?_some hfind
  rw [List.mem_filter] at hmem
  obtain ⟨hstaff, hpin⟩ := hmem
  unfold pinMatches at hpin
  simp only [Bool.and_eq_true, beq_iff_eq] at hpin
  exact ⟨hstaff, hpin.1.1, hpin.1.2, hpin.2, hname⟩

/-- **C2 counterexample**. The claim states that, among the tenant's
active PIN-matching credentials, authentication succeeds exactly when
the claimed name is a case-insensitive substring of a stored name. Here
the single credential of dealer `d` matches both PIN `1234` and the
claimed name `john`, yet `verify_pin` (at time 0, with the credential
locked until time 100) denies — so the stated equivalence is false. -/
theorem C2_counterexample :
    pinMatches toolsD.dealer_id "1234" sLocked = true
    ∧ nameMatches "john" sLocked = true
    ∧ dbLock.staff = [sLocked]
    ∧ (verify_pin dbLock toolsD "john" "1234" none 0).success = false := by
  exact ⟨by decide, by decide, by decide, by decide⟩

/-- **C2** (amended): `verify_pin` considers only active credentials of
its own tenant whose PIN equals the supplied pin — the credential it
authenticates always belongs to the tenant, so a PIN match on another
tenant's credential can never authenticate — and among those it
succeeds exactly when the first credential whose stored name contains
the claimed name (case-insensitively) exists **and is not currently
locked out**; a correct PIN with no name match is denied with the
distinct name-and-PIN message and authenticates no staff member, and a
success marks exactly the selected credential as this session's
authenticated staff while a failure leaves the session's authenticated
staff unchanged. -/
theorem C2_matching_policy
    (db : AuthDB) (tools : StaffAuthToolsState) (name pin : String)
    (caller_phone : Option String) (now : Int) :
    let ms := db.staff.filter (pinMatches tools.dealer_id pin)
    let o := verify_pin db tools name pin caller_phone now
    (o.success = true ↔
      ∃ s, ms.find? (nameMatches name) = some s ∧ isLocked now s = false)
    ∧ (∀ s, o.staff = some s →
        s ∈ db.staff ∧ s.dealer_id = tools.dealer_id ∧ s.voice_pin = pin
          ∧ s.is_active = true ∧ nameMatches name s = true
          ∧ o.tools.authenticated_staff = some s)
    ∧ (ms ≠ [] → ms.find? (nameMatches name) = none →
        o.success = false ∧ o.staff = none ∧ o.message = nameMismatchMsg
          ∧ o.tools = tools)
    ∧ (o.success = false →
        o.staff = none ∧ o.tools.authenticated_staff = tools.authenticated_staff) := by
  intro ms o
  cases hE : ms.isEmpty with
  | true =>
    have hnil : ms = [] := by
      have := List.isEmpty_eq_true.mp hE
      exact this
    have ho : o = _ := verify_pin_eq_of_no_pin_match db tools name pin caller_phone now hE
    rw [ho]
    refine ⟨?_, ?_, ?_, ?_⟩
    · simp only [show (false = true) ↔ False by simp, false_iff]
      rintro ⟨s, hfind, -⟩
      rw [hnil] at hfind
      simp at hfind
    · intro s hs
      simp at hs
    · intro hne
      exact absurd hnil hne
    · intro
      exact ⟨rfl, rfl⟩
  | false =>
    cases hF : ms.find? (nameMatches name) with
    | none =>
      have ho : o = _ := verify_pin_eq_of_name_mismatch db tools name pin
        caller_phone now hE hF
      rw [ho]
      refine ⟨?_, ?_, ?_, ?_⟩
      · simp only [show (false = true) ↔ False by simp, false_iff]
        rintro ⟨s, hfind, -⟩
        simp at hfind
      · intro s hs
        simp at hs
      · intro _ _
        exact ⟨rfl, rfl, rfl, rfl⟩
      · intro
        exact ⟨rfl, rfl⟩
    | some s0 =>
      cases hL : isLocked now s0 with
      | true =>
        have ho : o = _ := verify_pin_eq_of_locked db tools name pin
          caller_phone now s0 hF hL
        rw [ho]
        refine ⟨?_, ?_, ?_, ?_⟩
        · simp only [show (false = true) ↔ False by simp, false_iff]
          rintro ⟨s, hfind, hunlocked⟩
          injection hfind with h
          rw [← h] at hunlocked
          rw [hL] at hunlocked
          exact absurd hunlocked (by simp)
        · intro s hs
          simp at hs
        · intro _ hnone
          simp at hnone
        · intro
          exact ⟨rfl, rfl⟩
      | false =>
        have ho : o = _ := verify_pin_eq_of_success db tools name pin
          caller_phone now s0 hF hL
        rw [ho]
        refine ⟨?_, ?_, ?_, ?_⟩
        · simp only [true_iff]
          exact ⟨s0, rfl, hL⟩
        · intro s hs
          injection hs with hs
          subst hs
          have hp := find?_pin_name_props db tools name pin s0 hF
          exact ⟨hp.1, hp.2.1, hp.2.2.1, hp.2.2.2.1, hp.2.2.2.2, rfl⟩
        · intro _ hnone
          simp at hnone
        · intro hfalse
          simp at hfalse

/-- **C2 witness**: on concrete credentials of dealer `d`, the matching
name `john` with PIN `1234` authenticates, and a non-matching name with
the same correct PIN is denied with the distinct name-and-PIN message. -/
theorem C2_witness :
    (verify_pin dbJohn toolsD "john" "1234" none 5).success = true
    ∧ (verify_pin dbJohn toolsD "zzz" "1234" none 5).message = nameMismatchMsg := by
  constructor
  · exact (C2_matching_policy dbJohn toolsD "john" "1234" none 5).1.mpr
      ⟨sJohn, by decide, by decide⟩
  · exact ((C2_matching_policy dbJohn toolsD "zzz" "1234" none 5).2.2.1
      (by decide) (by decide)).2.2.1

/-- **C7 counterexample**. The claim states that a failed attempt
increments the failed-attempt counter of the matched credential. Here
PIN `1234` matches the stored credential (so the attempt is logged
against a real PIN match) but the claimed name does not; the attempt
fails, yet the staff table after the call is exactly the table before
it — the failed-attempt counter stays at 0. -/
theorem C7_counterexample :
    pinMatches toolsD.dealer_id "1234" sJohn = true
    ∧ nameMatches "alice" sJohn = false
    ∧ (verify_pin dbJohn toolsD "alice" "1234" none 0).success = false
    ∧ (verify_pin dbJohn toolsD "alice" "1234" none 0).db.staff = dbJohn.staff
    ∧ dbJohn.staff.map (fun s => s.failed_attempts) = [some 0]
    ∧ (verify_pin dbJohn toolsD "alice" "1234" none 0).db.staff.map
        (fun s => s.failed_attempts) = [some 0] := by
  exact ⟨by decide, by decide, by decide, by decide, by decide, by decide⟩

/-- **C7** (amended): a successful authentication attempt mutates the
matched staff credential — it resets the failed-attempt counter to
zero, increments the access counter, and stamps the last-access time —
while a failed attempt leaves every stored credential unchanged (the
failure is recorded in the append-only access log in the no-PIN-match
and name-mismatch cases, and nothing is written in the locked case). -/
theorem C7_attempt_mutation
    (db : AuthDB) (tools : StaffAuthToolsState) (name pin : String)
    (caller_phone : Option String) (now : Int) :
    let o := verify_pin db tools name pin caller_phone now
    (o.success = false → o.db.staff = db.staff)
    ∧ (∀ s, o.staff = some s →
        o.success = true
        ∧ o.db.staff = db.staff.map (fun r =>
            if r.id == s.id then
              { r with last_access_at := some now,
                       access_count := some (s.access_count.getD 0 + 1),
                       failed_attempts := some 0 }
            else r)) := by
  intro o
  cases hE : (db.staff.filter (pinMatches tools.dealer_id pin)).isEmpty with
  | true =>
    have ho : o = _ := verify_pin_eq_of_no_pin_match db tools name pin caller_phone now hE
    rw [ho]
    exact ⟨fun _ => rfl, fun s hs => by simp at hs⟩
  | false =>
    cases hF : (db.staff.filter (pinMatches tools.dealer_id pin)).find? (nameMatches name) with
    | none =>
      have ho : o = _ := verify_pin_eq_of_name_mismatch db tools name pin
        caller_phone now hE hF
      rw [ho]
      exact ⟨fun _ => rfl, fun s hs => by simp at hs⟩
    | some s0 =>
      cases hL : isLocked now s0 with
      | true =>
        have ho : o = _ := verify_pin_eq_of_locked db tools name pin
          caller_phone now s0 hF hL
        rw [ho]
        exact ⟨fun _ => rfl, fun s hs => by simp at hs⟩
      | false =>
        have ho : o = _ := verify_pin_eq_of_success db tools name pin
          caller_phone now s0 hF hL
        rw [ho]
        refine ⟨fun h => by simp at h, fun s hs => ?_⟩
        injection hs with hs
        subst hs
        exact ⟨rfl, rfl⟩

/-- **C7 witness**: a concrete successful attempt rewrites the matched
row (counter reset, access count bumped, last access stamped), and a
concrete failed attempt (wrong PIN) leaves the staff table unchanged. -/
theorem C7_witness :
    (verify_pin dbJohn toolsD "john" "1234" none 5).db.staff
      = dbJohn.staff.map (fun r =>
          if r.id == sJohn.id then
            { r with last_access_at := some 5,
                     access_count := some (sJohn.access_count.getD 0 + 1),
                     failed_attempts := some 0 }
          else r)
    ∧ (verify_pin dbJohn toolsD "nobody" "9999" none 0).db.staff = dbJohn.staff := by
  constructor
  · exact ((C7_attempt_mutation dbJohn toolsD "john" "1234" none 5).2 sJohn (by decide)).2
  · exact (C7_attempt_mutation dbJohn toolsD "nobody" "9999" none 0).1 (by decide)

/-- Helper: the finalization block's final duration equals the
spec-side rule — the recording duration is authoritative when present
and nonzero, zero or absent stop durations fall back to the wall
clock. -/
theorem finalizeCall_duration
    (stopRec : String → Option String × Option Nat) (wall_elapsed : Nat)
    (info : CallInfo) (acl : Option String) :
    (finalizeCall stopRec wall_elapsed info acl).call_duration
      = specFinalDuration stopRec wall_elapsed info := by
  simp only [finalizeCall, specFinalDuration]
  cases hE : pyTruthyStr info.egress_id with
  | false => simp [pyTruthyNat]
  | true =>
    cases hD : (stopRec (info.egress_id.getD "")).2 with
    | none => simp [pyTruthyNat, hD]
    | some d =>
      by_cases hz : d = 0
      · subst hz
        simp [pyTruthyNat, hD]
      · simp [pyTruthyNat, hD, hz]

/-- Helper: the billing minutes computed by finalization are the
round-up of its final duration. -/
theorem finalizeCall_minutes_eq
    (stopRec : String → Option String × Option Nat) (wall_elapsed : Nat)
    (info : CallInfo) (acl : Option String) :
    (finalizeCall stopRec wall_elapsed info acl).call_minutes
      = max 1 (((finalizeCall stopRec wall_elapsed info acl).call_duration + 59) / 60) := by
  simp only [finalizeCall]
  cases hD : pyTruthyNat ((if pyTruthyStr info.egress_id then
      stopRec (info.egress_id.getD "")
    else ((none : Option String), (none : Option Nat))).2) <;> simp [hD]

/-- Helper: the billing minutes, through the spec-side formulas. -/
theorem finalizeCall_minutes
    (stopRec : String → Option String × Option Nat) (wall_elapsed : Nat)
    (info : CallInfo) (acl : Option String) :
    (finalizeCall stopRec wall_elapsed info acl).call_minutes
      = specCeilMinutes (specFinalDuration stopRec wall_elapsed info) := by
  rw [finalizeCall_minutes_eq, finalizeCall_duration, ceil_minutes_eq_spec]

/-- Helper: the billing accrual emitted by finalization — exactly one
increment, keyed by the call's dealer voice agent id, of the computed
minutes; none for a global-line call. -/
theorem finalizeCall_minutesIncrement
    (stopRec : String → Option String × Option Nat) (wall_elapsed : Nat)
    (info : CallInfo) (acl : Option String) :
    (finalizeCall stopRec wall_elapsed info acl).minutesIncrement
      = if pyTruthyStr info.dealer_voice_agent_id then
          some (info.dealer_voice_agent_id.getD "",
            (finalizeCall stopRec wall_elapsed info acl).call_minutes)
        else none := rfl

/-- **C1 counterexample**. The claim makes any duration returned by
recording stop authoritative. When stop returns duration `0` (an
immediately-terminated recording) on a 100-second call, the claim's
duration is `0`, so the claim's billing formula gives 1 minute; the code
treats `0` as falsy, keeps the 100-second wall-clock duration, and
accrues 2 minutes onto the tenant's counter (7 used before, 9 after,
not 8). -/
theorem C1_counterexample :
    claimFinalDuration (fun _ => (some "https://rec/x.mp3", some 0)) 100 infoDealerCall = 0
    ∧ specCeilMinutes 0 = 1
    ∧ (finalizeCall (fun _ => (some "https://rec/x.mp3", some 0)) 100
        infoDealerCall none).call_minutes = 2
    ∧ applyBilling (finalizeCall (fun _ => (some "https://rec/x.mp3", some 0)) 100
        infoDealerCall none) [dvaBilling]
      = [{ dvaBilling with minutes_used := some 9 }] := by
  exact ⟨by decide, by decide, by decide, by decide⟩

/-- **C1** (amended): for every completed call, when the call resolved
to a dealer tenant, finalization accrues onto that tenant's row exactly
`ceil(duration_seconds / 60)` minutes, minimum 1, added exactly once,
where `duration_seconds` is the duration returned by recording stop
when a **nonzero** one is returned (zero or absent stop durations fall
back to the wall-clock elapsed seconds); rows of other tenants are
untouched, and a call resolved to the global default accrues nothing. -/
theorem C1_billing_accrual
    (stopRec : String → Option String × Option Nat) (wall_elapsed : Nat)
    (info : CallInfo) (acl : Option String) (table : List DealerVoiceAgent) :
    let out := finalizeCall stopRec wall_elapsed info acl
    (info.dealer_voice_agent_id = none → applyBilling out table = table)
    ∧ (∀ i row, info.dealer_voice_agent_id = some i → i ≠ "" →
        table.find? (fun r => r.id == i) = some row →
        (applyBilling out table).find? (fun r => r.id == i)
          = some { row with minutes_used := some (row.minutes_used.getD 0
              + specCeilMinutes (specFinalDuration stopRec wall_elapsed info)) }
        ∧ ∀ r ∈ table, r.id ≠ i → r ∈ applyBilling out table) := by
  intro out
  constructor
  · intro h
    have hmi : out.minutesIncrement = none := by
      rw [finalizeCall_minutesIncrement, h]
      rfl
    unfold applyBilling
    rw [hmi]
  · intro i row hd hne hrow
    have htruthy : pyTruthyStr info.dealer_voice_agent_id = true := by
      rw [hd]
      simp [pyTruthyStr, hne]
    have hmi : out.minutesIncrement = some (i, out.call_minutes) := by
      rw [finalizeCall_minutesIncrement, htruthy, hd]
      rfl
    have hmin : out.call_minutes
        = specCeilMinutes (specFinalDuration stopRec wall_elapsed info) :=
      finalizeCall_minutes stopRec wall_elapsed info acl
    have happ0 : applyBilling out table
        = (increment_dealer_minutes table i out.call_minutes).1 := by
      unfold applyBilling
      rw [hmi]
    have happ : applyBilling out table
        = table.map (fun r =>
            if r.id == i then
              { r with minutes_used := some (row.minutes_used.getD 0 + out.call_minutes) }
            else r) := by
      rw [happ0]
      unfold increment_dealer_minutes
      rw [hrow]
    constructor
    · rw [happ, List.find?_map]
      have hcomp : ((fun r : DealerVoiceAgent => r.id == i) ∘ (fun r =>
          if r.id == i then
            { r with minutes_used := some (row.minutes_used.getD 0 + out.call_minutes) }
          else r)) = (fun r : DealerVoiceAgent => r.id == i) := by
        funext r
        simp only [Function.comp]
        by_cases h : (r.id == i) = true
        · rw [if_pos h]
        · rw [if_neg h]
      rw [hcomp, hrow]
      have hid : (row.id == i) = true := by
        have h := List.find?_some hrow
        exact h
      have hmap : ((some row).map (fun r =>
          if r.id == i then
            { r with minutes_used := some (row.minutes_used.getD 0 + out.call_minutes) }
          else r)) = some (if row.id == i then
            { row with minutes_used := some (row.minutes_used.getD 0 + out.call_minutes) }
          else row) := rfl
      rw [hmap, if_pos hid, hmin]
    · intro r hr hrne
      rw [happ]
      have hf : (if r.id == i then
          { r with minutes_used := some (row.minutes_used.getD 0 + out.call_minutes) }
          else r) = r := by
        rw [if_neg (by simp [hrne])]
      exact hf ▸ List.mem_map_of_mem _ hr

/-- **C1 witness**: a recorded 125-second call on the dealer line with a
nonzero stop duration accrues `ceil(125/60) = 3` minutes, exactly once,
onto the dealer voice agent row (7 minutes used before, 10 after). -/
theorem C1_witness :
    (applyBilling (finalizeCall (fun _ => (some "https://rec/x.mp3", some 125)) 10
        infoDealerCall none) [dvaBilling]).find? (fun r => r.id == "dva-1")
      = some { dvaBilling with minutes_used := some (dvaBilling.minutes_used.getD 0
          + specCeilMinutes (specFinalDuration
              (fun _ => (some "https://rec/x.mp3", some 125)) 10 infoDealerCall)) } := by
  exact ((C1_billing_accrual (fun _ => (some "https://rec/x.mp3", some 125)) 10
    infoDealerCall none [dvaBilling]).2 "dva-1" dvaBilling rfl (by decide) (by decide)).1

/-- **C9 counterexample**. The claim schedules transcription whenever a
recording URL exists and the duration exceeds 5 seconds. Here a
100-second recorded call has a recording URL, but no call-log record
was created for the call, and the background task is not scheduled. -/
theorem C9_counterexample :
    pyTruthyStr (finalizeCall (fun _ => (some "https://rec/x.mp3", some 100)) 100
        infoNoCallLog none).recording_url = true
    ∧ (finalizeCall (fun _ => (some "https://rec/x.mp3", some 100)) 100
        infoNoCallLog none).call_duration > 5
    ∧ (finalizeCall (fun _ => (some "https://rec/x.mp3", some 100)) 100
        infoNoCallLog none).transcriptionScheduled = false := by
  exact ⟨by decide, by decide, by decide⟩

/-- **C9** (amended): at finalization, the detached
transcription-and-summarization task is scheduled exactly when a
recording URL was obtained, the final duration exceeds 5 seconds, and a
call-log record exists for the call; in particular it is never
scheduled when no recording exists or the duration is 5 seconds or
less. (Detachment itself — `asyncio.create_task` without an await — is
a scheduling property outside the embedding; what is settled here is
when the task is created.) -/
theorem C9_transcription_gate
    (stopRec : String → Option String × Option Nat) (wall_elapsed : Nat)
    (info : CallInfo) (acl : Option String) :
    let out := finalizeCall stopRec wall_elapsed info acl
    out.transcriptionScheduled = true ↔
      pyTruthyStr info.call_log_id = true
      ∧ pyTruthyStr out.recording_url = true
      ∧ out.call_duration > 5 := by
  intro out
  have h : out.transcriptionScheduled
      = (pyTruthyStr info.call_log_id && pyTruthyStr out.recording_url
          && !(out.call_duration = 0) && decide (out.call_duration > 5)) := rfl
  rw [h]
  simp only [Bool.and_eq_true, Bool.not_eq_true', decide_eq_true_eq,
    decide_eq_false_iff_not]
  constructor
  · rintro ⟨⟨⟨hc, hu⟩, -⟩, hgt⟩
    exact ⟨hc, hu, hgt⟩
  · rintro ⟨hc, hu, hgt⟩
    exact ⟨⟨⟨hc, hu⟩, by omega⟩, hgt⟩

/-- Helper: a `verify_staff_pin` tool call either succeeds (and then the
session is marked staff-authenticated) or leaves the session's
staff-authenticated flag exactly as it was. -/
theorem agentVerifyStaffPin_flag_cases
    (db : AuthDB) (st : AgentState) (name pin : String) (now : Int) :
    ((agentVerifyStaffPin db st name pin now).success = true
      ∧ (agentVerifyStaffPin db st name pin now).st.is_staff_authenticated = true)
    ∨ ((agentVerifyStaffPin db st name pin now).success = false
      ∧ (agentVerifyStaffPin db st name pin now).st.is_staff_authenticated
          = st.is_staff_authenticated) := by
  cases hst : st.staff_tools with
  | none =>
    simp only [agentVerifyStaffPin, hst]
    simp
  | some tools =>
    simp only [agentVerifyStaffPin, hst]
    cases hsu : (verify_pin db tools name pin st.caller_phone now).success with
    | true =>
      cases hsta : (verify_pin db tools name pin st.caller_phone now).staff with
      | some s => simp
      | none => simp
    | false =>
      cases hsta : (verify_pin db tools name pin st.caller_phone now).staff with
      | some s => simp
      | none => simp

/-- Helper: a trace in which no `verify_staff_pin` call succeeded leaves
the session's staff-authenticated flag as it started. -/
theorem runTrace_no_success_preserves_flag
    (fetch : StaffCred → String → Option String → Option QueryFilters → String) :
    ∀ (trace : List ToolCall) (st : AgentState) (db : AuthDB),
    (runTrace fetch st db trace).2.2 = false →
    (runTrace fetch st db trace).1.is_staff_authenticated
      = st.is_staff_authenticated := by
  intro trace
  induction trace with
  | nil => intro st db _; rfl
  | cons e rest ih =>
    intro st db h
    cases e with
    | verifyPin name pin now =>
      simp only [runTrace] at h ⊢
      rcases hr : runTrace fetch (agentVerifyStaffPin db st name pin now).st
          (agentVerifyStaffPin db st name pin now).db rest with ⟨st', db', any⟩
      dsimp only at h ⊢
      have hor := Bool.or_eq_false_iff.mp h
      have hsu : (agentVerifyStaffPin db st name pin now).success = false := hor.1
      have hany : any = false := by
        have h2 := hor.2
        rw [hr] at h2
        exact h2
      have hstep : (agentVerifyStaffPin db st name pin now).st.is_staff_authenticated
          = st.is_staff_authenticated := by
        rcases agentVerifyStaffPin_flag_cases db st name pin now with ⟨h1, -⟩ | ⟨-, h2⟩
        · rw [h1] at hsu
          exact absurd hsu (by simp)
        · exact h2
      have hih := ih (agentVerifyStaffPin db st name pin now).st
        (agentVerifyStaffPin db st name pin now).db (by rw [hr]; exact hany)
      rw [hr] at hih
      dsimp only at hih
      rw [hih, hstep]
    | queryData qt q fs ft =>
      simp only [runTrace] at h ⊢
      rcases hq : agentQueryInternalData fetch db st qt q fs ft with ⟨msg, db2⟩
      rw [hq] at h
      dsimp only at h ⊢
      exact ih st db2 h

/-- Helper: on a session without staff tools, no tool call changes the
session state or the staff store. -/
theorem runTrace_no_tools_const
    (fetch : StaffCred → String → Option String → Option QueryFilters → String) :
    ∀ (trace : List ToolCall) (st : AgentState) (db : AuthDB),
    st.staff_tools = none →
    (runTrace fetch st db trace).1 = st ∧ (runTrace fetch st db trace).2.1 = db := by
  intro trace
  induction trace with
  | nil => intro st db _; exact ⟨rfl, rfl⟩
  | cons e rest ih =>
    intro st db hst
    cases e with
    | verifyPin name pin now =>
      have hv : agentVerifyStaffPin db st name pin now
          = { reply := staffNotAvailMsg, db := db, st := st, success := false } := by
        simp [agentVerifyStaffPin, hst]
      simp only [runTrace, hv]
      rcases hr : runTrace fetch st db rest with ⟨st', db', any⟩
      have hih := ih st db hst
      rw [hr] at hih
      dsimp only
      exact hih
    | queryData qt q fs ft =>
      have hq : agentQueryInternalData fetch db st qt q fs ft = (dataNotAvailMsg, db) := by
        simp [agentQueryInternalData, hst]
      simp only [runTrace, hq]
      exact ih st db hst

/-- **C4 counterexample**. The claim says every query from a session
without an authenticated staff reference is rejected "with a message
instructing the caller to authenticate first". On the global line the
query is indeed rejected, but with the not-available message, which
does not mention authentication at all. -/
theorem C4_counterexample :
    (agentQueryInternalData fetch0 dbEmpty stGlobal "leads" none none false).1
        = dataNotAvailMsg
    ∧ strContains (pyLower (agentQueryInternalData fetch0 dbEmpty stGlobal
        "leads" none none false).1) "authenticate" = false
    ∧ (agentQueryInternalData fetch0 dbEmpty stGlobal "leads" none none false).1
        ≠ agentAuthFirstMsg := by
  exact ⟨by decide, by decide, by decide⟩

/-- **C4** (amended): a `query_internal_data` invocation from a session
that does not hold a successfully authenticated staff reference is
rejected and returns no internal data — the response is a fixed
message, independent of the internal store and of the dispatch: the
authenticate-first message on a dealer line, the not-available message
on a line without staff tools — and a session's staff-authenticated
flag can only be set by a successful `verify_staff_pin` in that same
session, so queries can succeed only after one. -/
theorem C4_query_gate
    (fetch : StaffCred → String → Option String → Option QueryFilters → String)
    (db : AuthDB) (st : AgentState) (query_type : String)
    (query filter_status : Option String) (filter_today : Bool)
    (trace : List ToolCall) :
    (∀ tools, st.staff_tools = some tools → st.is_staff_authenticated = false →
      agentQueryInternalData fetch db st query_type query filter_status filter_today
        = (agentAuthFirstMsg, db))
    ∧ (st.staff_tools = none →
      agentQueryInternalData fetch db st query_type query filter_status filter_today
        = (dataNotAvailMsg, db))
    ∧ ((runTrace fetch st db trace).2.2 = false →
      (runTrace fetch st db trace).1.is_staff_authenticated
        = st.is_staff_authenticated) := by
  refine ⟨?_, ?_, runTrace_no_success_preserves_flag fetch trace st db⟩
  · intro tools hst hauth
    simp [agentQueryInternalData, hst, hauth]
  · intro hst
    simp [agentQueryInternalData, hst]

/-- **C4 witness**: a dealer-line session that has not authenticated is
told to authenticate first, and a trace with no successful
verification leaves a fresh session unauthenticated. -/
theorem C4_witness :
    agentQueryInternalData fetch0 dbEmpty stDealer "leads" none none false
      = (agentAuthFirstMsg, dbEmpty) := by
  exact (C4_query_gate fetch0 dbEmpty stDealer "leads" none none false []).1
    { dealer_id := "dealer-1", authenticated_staff := none } (by decide) (by decide)

/-- **C10** (confirmed). On a call with no resolved dealer tenant the
agent has no staff tools; `verify_staff_pin` then always returns the
not-available refusal, touching neither the staff store nor the
session; `query_internal_data` is always refused likewise without
reading anything; an agent initialized without a dealer id starts with
no staff tools and unauthenticated; and no trace of tool calls on such
a session can change its state — in particular it can never become
staff-authenticated. -/
theorem C10_global_line_refusals
    (fetch : StaffCred → String → Option String → Option QueryFilters → String)
    (db : AuthDB) (st : AgentState) (name pin : String) (now : Int)
    (query_type : String) (query filter_status : Option String)
    (filter_today : Bool) (trace : List ToolCall)
    (settings : Settings) (room : String)
    (caller_phone business_name transfer_number : Option String)
    (can_transfer : Bool)
    (hst : st.staff_tools = none) :
    agentVerifyStaffPin db st name pin now
      = { reply := staffNotAvailMsg, db := db, st := st, success := false }
    ∧ agentQueryInternalData fetch db st query_type query filter_status filter_today
      = (dataNotAvailMsg, db)
    ∧ (runTrace fetch st db trace).1 = st
    ∧ (runTrace fetch st db trace).2.1 = db
    ∧ (runTrace fetch st db trace).1.is_staff_authenticated
        = st.is_staff_authenticated
    ∧ (initAgent settings room caller_phone none business_name can_transfer
        transfer_number).staff_tools = none
    ∧ (initAgent settings room caller_phone none business_name can_transfer
        transfer_number).is_staff_authenticated = false := by
  have hconst := runTrace_no_tools_const fetch trace st db hst
  refine ⟨?_, ?_, hconst.1, hconst.2, by rw [hconst.1], rfl, rfl⟩
  · simp [agentVerifyStaffPin, hst]
  · simp [agentQueryInternalData, hst]

/-- **C10 witness**: on the concrete global-line session, both tools
refuse with the not-available messages and nothing changes. -/
theorem C10_witness :
    agentVerifyStaffPin dbEmpty stGlobal "John" "1234" 0
      = { reply := staffNotAvailMsg, db := dbEmpty, st := stGlobal, success := false }
    ∧ agentQueryInternalData fetch0 dbEmpty stGlobal "stats" none none false
      = (dataNotAvailMsg, dbEmpty)
    ∧ stGlobal.is_staff_authenticated = false := by
  have h := C10_global_line_refusals fetch0 dbEmpty stGlobal "John" "1234" 0
    "stats" none none false [] DEFAULT_SETTINGS "room-1" (some "+15550001111")
    none none false rfl
  exact ⟨h.1, h.2.1, rfl⟩

end Axles
